import Mathlib

/-!
Verification development for a multi-agent OAuth2/OIDC delegation system.

The development shallowly embeds the stateful core of the repository:
the authorization server (idp/app.py), the token validator
(auth_lib/validator.py), and the task router/orchestrator
(host_agent/routing_agent.py together with the OAuth callback handler in
host_agent/__main__.py).  Pure Python functions become Lean functions;
the mutable module-level dictionaries (the authorization-code map, the
task store) become explicit state threaded through the functions.
External library calls (SHA-256/base64url hashing, RSA signature
verification, JSON serialisation, UUID generation, wall-clock time) are
abstracted: hashing is a function parameter, signature validity is a
boolean field computed by the external jwt library, fresh identifiers
and the current time are arguments.
-/

/-- Python truthiness of an optional string: `None` and the empty string
are falsy, every other string is truthy. -/
def strTruthy : Option String → Bool
  | none => false
  | some s => !(s == "")

/-- First-match lookup in an association list keyed by strings; models
`dict.get` for dictionaries whose keys are unique. -/
def alistFind {α : Type} (l : List (String × α)) (k : String) : Option α :=
  match l with
  | [] => none
  | (k2, v) :: rest => if k2 = k then some v else alistFind rest k

/-- Removal of a key from an association list; models `dict.pop`'s
mutation for dictionaries whose keys are unique. -/
def alistErase {α : Type} : List (String × α) → String → List (String × α)
  | [], _ => []
  | p :: rest, k => if p.1 = k then alistErase rest k else p :: alistErase rest k

/-- Python `str.split(sep)` with a one-character separator, keeping empty
fragments: auxiliary recursion over the characters. -/
def splitOnCharAux (c : Char) : List Char → List Char → List String
  | [], acc => [String.mk acc.reverse]
  | x :: xs, acc =>
    if x = c then String.mk acc.reverse :: splitOnCharAux c xs []
    else splitOnCharAux c xs (x :: acc)

/-- Python `s.split(c)`: in particular `"".split(" ") = [""]`. -/
def pySplit (s : String) (c : Char) : List String :=
  splitOnCharAux c s.data []

/-- Python `" ".join(l)`. -/
def joinSpace : List String → String
  | [] => ""
  | [s] => s
  | s :: rest => s ++ " " ++ joinSpace rest

/-! ## Authorization server (idp/app.py) -/

/-- Entry of `USER_REGISTRY` (idp/app.py). -/
structure User where
  password : String
  sub : String
  profile : String
  email : String
  tenant_id : String
deriving DecidableEq

/-- Entry of `CLIENT_REGISTRY` (idp/app.py). -/
structure Client where
  client_secret : String
  allowed_scopes : List String
  redirect_uri : List String
  response_types : List String
  grant_types : List String
  client_name : String
deriving DecidableEq

/-- The concrete `USER_REGISTRY` of idp/app.py. -/
def USER_REGISTRY : List (String × User) :=
  [("john.doe",
    { password := "password123", sub := "john.doe", profile := "I am John Doe.",
      email := "john.doe @example.com", tenant_id := "tenant-abc" }),
   ("jane.doe",
    { password := "password123", sub := "jane.doe", profile := "I am Jane Doe.",
      email := "jane.doe @example.com", tenant_id := "tenant-xyz" })]

/-- The concrete `CLIENT_REGISTRY` of idp/app.py. -/
def CLIENT_REGISTRY : List (String × Client) :=
  [("airbnb_agent",
    { client_secret := "airbnb_secret",
      allowed_scopes := ["api:read", "api:write", "openid", "profile", "email"],
      redirect_uri := ["http://localhost:8000/dev-ui/"],
      response_types := ["code"], grant_types := ["authorization_code"],
      client_name := "Airbnb Agent" }),
   ("weather_agent",
    { client_secret := "weather_secret",
      allowed_scopes := ["api:read", "openid"],
      redirect_uri := ["http://localhost:8083/callback"],
      response_types := ["code"], grant_types := ["authorization_code"],
      client_name := "Weather Agent" }),
   ("Horizon Agent - Tenant ABC",
    { client_secret := "horizon_secret_abc",
      allowed_scopes := ["api:read", "openid", "profile", "email"],
      redirect_uri := ["http://localhost:8083/callback"],
      response_types := ["code"], grant_types := ["authorization_code"],
      client_name := "Horizon Agent - Tenant ABC" }),
   ("Calendar Agent",
    { client_secret := "calendar_secret",
      allowed_scopes := ["api:read", "openid", "profile", "email"],
      redirect_uri := ["http://localhost:8083/callback"],
      response_types := ["code"], grant_types := ["authorization_code"],
      client_name := "Calendar Agent" })]

/-- The registry entry of `weather_agent`, used by concrete witnesses. -/
def weatherClient : Client :=
  { client_secret := "weather_secret", allowed_scopes := ["api:read", "openid"],
    redirect_uri := ["http://localhost:8083/callback"], response_types := ["code"],
    grant_types := ["authorization_code"], client_name := "Weather Agent" }

/-- One stored authorization code: the value under a code key in the
`AUTHORIZATION_CODES` dictionary (idp/app.py, consent handler). -/
structure AuthCodeData where
  client_id : String
  user : User
  scopes : List String
  redirect_uri : String
  expires_at : Nat
  code_challenge : Option String
  code_challenge_method : Option String
deriving DecidableEq

/-- The `GENERATE_JWT` configuration flag: `os.getenv("GENERATE_JWT",
"true").lower() == "true"` under the default environment (the variable
unset), hence `true`. -/
def GENERATE_JWT : Bool := true

/-- Claims of an access token minted by `create_access_token`
(idp/app.py); the RS256 signing of the payload is external. -/
structure AccessTokenPayload where
  iss : String
  aud : String
  sub : String
  exp : Nat
  iat : Nat
  scope : String
  tenant_id : Option String
deriving DecidableEq

/-- Value returned by `create_access_token`: a signed JWT payload when
`GENERATE_JWT` holds, otherwise an opaque random hex string. -/
inductive AccessTokenValue where
  | jwtTok (payload : AccessTokenPayload)
  | randomHex
deriving DecidableEq

/-- `create_access_token(client_id, scopes, user_sub, tenant_id)` of
idp/app.py, with the current time a parameter.  `sub` falls back to the
client id when `user_sub` is falsy, and `tenant_id` is only included
when truthy, as in the source. -/
def create_access_token (now : Nat) (client_id : String) (scopes : List String)
    (user_sub : Option String) (tenant_id : Option String) : AccessTokenValue :=
  if GENERATE_JWT then
    .jwtTok
      { iss := "http://localhost:5000"
        aud := "http://localhost:8081"
        sub := if strTruthy user_sub then user_sub.getD "" else client_id
        exp := now + 3600
        iat := now
        scope := joinSpace scopes
        tenant_id := if strTruthy tenant_id then tenant_id else none }
  else .randomHex

/-- Claims of an ID token minted by `create_id_token` (idp/app.py). -/
structure IdTokenPayload where
  iss : String
  sub : String
  aud : String
  exp : Nat
  iat : Nat
  auth_time : Nat
  email : String
  profile : String
  scope : String
  nonce : Option String
deriving DecidableEq

/-- `create_id_token(client_id, user_data, scopes, nonce)` of idp/app.py. -/
def create_id_token (now : Nat) (client_id : String) (user : User)
    (scopes : List String) (nonce : Option String) : Option IdTokenPayload :=
  if !GENERATE_JWT then none
  else some
    { iss := "http://localhost:5000"
      sub := user.sub
      aud := client_id
      exp := now + 3600
      iat := now
      auth_time := now
      email := user.email
      profile := user.profile
      scope := joinSpace scopes
      nonce := if strTruthy nonce then nonce else none }

/-- The request visible to `generate_token` (idp/app.py): `basicCreds`
is the result of parsing and base64-decoding an `Authorization: Basic`
header (the decoding itself is an external library call; `none` covers
both a missing header and a malformed one, which the source treats
identically by falling back to form fields), and the remaining fields
are the POST form fields, absent fields being `none`. -/
structure TokenRequest where
  basicCreds : Option (String × String)
  form_client_id : Option String
  form_client_secret : Option String
  grant_type : Option String
  scope : Option String
  code : Option String
  redirect_uri : Option String
  code_verifier : Option String
deriving DecidableEq

/-- Response of the `/generate-token` endpoint: either a structured
OAuth error with its HTTP status, or a token response. -/
inductive TokenResult where
  | err (error : String) (error_description : Option String) (status : Nat)
  | ok (access_token : AccessTokenValue) (id_token : Option IdTokenPayload)
      (token_type : String) (expires_in : Nat) (scope : String)
deriving DecidableEq

/-- Client-credential resolution at the top of `generate_token`: Basic
credentials take precedence; if either decoded part is falsy both fall
back to the form fields. -/
def resolveClientCreds (basicCreds : Option (String × String))
    (formClientId formClientSecret : Option String) : Option String × Option String :=
  let fromBasic : Option String × Option String :=
    match basicCreds with
    | some (a, b) => (some a, some b)
    | none => (none, none)
  if strTruthy fromBasic.1 && strTruthy fromBasic.2 then fromBasic
  else (formClientId, formClientSecret)

/-- The loop over requested scopes in the `client_credentials` branch:
first scope not contained in the client's `allowed_scopes`, if any. -/
def firstDisallowedScope (scopes allowed : List String) : Option String :=
  match scopes with
  | [] => none
  | s :: rest => if allowed.contains s then firstDisallowedScope rest allowed else some s

/-- `generate_token` (idp/app.py, POST /generate-token).  `s256` is the
external challenge computation
`base64.urlsafe_b64encode(hashlib.sha256(v.encode())).decode().replace("=", "")`;
`registry` is `CLIENT_REGISTRY`; `codes` is the mutable
`AUTHORIZATION_CODES` dictionary, returned updated; `now` is
`time.time()`.  Faithful to the source: the authorization code is
popped from the store before the redirect-uri/client-id, expiry and
PKCE checks. -/
def generate_token (s256 : String → String) (registry : List (String × Client))
    (now : Nat) (codes : List (String × AuthCodeData)) (req : TokenRequest) :
    TokenResult × List (String × AuthCodeData) :=
  let creds := resolveClientCreds req.basicCreds req.form_client_id req.form_client_secret
  match creds.1 with
  | none => (.err "invalid_client" (some "Client not found") 401, codes)
  | some client_id =>
    match alistFind registry client_id with
    | none => (.err "invalid_client" (some "Client not found") 401, codes)
    | some client =>
      if creds.2 ≠ some client.client_secret then
        (.err "invalid_client" (some "Client authentication failed") 401, codes)
      else if req.grant_type = some "client_credentials" then
        let scopes := pySplit (req.scope.getD "") ' '
        match firstDisallowedScope scopes client.allowed_scopes with
        | some _ => (.err "invalid_scope" none 400, codes)
        | none =>
          (.ok (create_access_token now client_id scopes none none) none
            "Bearer" 3600 (joinSpace scopes), codes)
      else if req.grant_type = some "authorization_code" then
        match req.code with
        | none => (.err "invalid_grant" (some "Invalid or expired authorization code.") 400, codes)
        | some code =>
          match alistFind codes code with
          | none =>
            (.err "invalid_grant" (some "Invalid or expired authorization code.") 400,
              alistErase codes code)
          | some d =>
            let codes2 := alistErase codes code
            let success : TokenResult × List (String × AuthCodeData) :=
              (.ok (create_access_token now client_id d.scopes (some d.user.sub)
                      (some d.user.tenant_id))
                 (create_id_token now client_id d.user d.scopes none)
                 "Bearer" 3600 (joinSpace d.scopes), codes2)
            if req.redirect_uri ≠ some d.redirect_uri ∨ d.client_id ≠ client_id then
              (.err "invalid_grant" (some "Redirect URI or client ID mismatch") 400, codes2)
            else if now > d.expires_at then
              (.err "invalid_grant" (some "Authorization code has expired") 400, codes2)
            else
              match d.code_challenge with
              | none => success
              | some ch =>
                if ch = "" then success
                else
                  match req.code_verifier with
                  | none =>
                    (.err "invalid_request" (some "Code verifier is required for PKCE flow.") 400,
                      codes2)
                  | some v =>
                    if v = "" then
                      (.err "invalid_request" (some "Code verifier is required for PKCE flow.") 400,
                        codes2)
                    else if s256 v ≠ ch then
                      (.err "invalid_grant" (some "PKCE code challenge mismatch.") 400, codes2)
                    else success
      else (.err "unsupported_grant_type" none 400, codes)

/-! ## Token validator (auth_lib/validator.py) -/

/-- Payload claims of a bearer token as decoded by the external jwt
library; `is_token_valid` inspects `exp`, `aud`, `iss` and
`tenant_id`. -/
structure JwtClaims where
  sub : String
  exp : Int
  aud : String
  iss : String
  tenant_id : Option String
deriving DecidableEq

/-- A bearer token as seen through the external jwt library: the raw
string (only its emptiness is observable to the validator directly),
the unverified header fields `kid` and `alg`, the payload claims, and
`sigValid` — the verdict of the external RSA signature verification of
the token against the JWKS key matching `kid`. -/
structure JwtToken where
  raw : String
  kid : Option String
  alg : String
  sigValid : Bool
  claims : JwtClaims
deriving DecidableEq

/-- Result of `is_token_valid`: the Python pair `(True, decoded_token)`
or `(False, reason)`. -/
inductive ValidationResult where
  | valid (claims : JwtClaims)
  | invalid (reason : String)
deriving DecidableEq

/-- The mismatch message f-string of auth_lib/validator.py line 100. -/
def tenantMismatchMsg (t r : String) : String :=
  "Token \x27tenant_id\x27 (" ++ t ++ ") does not match required tenant_id (" ++ r ++ ")."

/-- `is_token_valid(token, required_tenant_id)` of auth_lib/validator.py.
The OIDC discovery document and JWKS are assumed already cached and
well-formed (their lazy fetch is a network call): `issuer` is the
cached discovery document's `issuer` and `jwksKids` the list of `kid`
values in the cached JWKS.  The external `jwt.decode` call is unfolded
into its checks in PyJWT's order — signature, then `exp`, then `aud`
(against the hardcoded audience "http://localhost:8081"), then `iss` —
each failure caught and mapped to the source's reason strings.  A falsy
`required_tenant_id` (absent or empty) skips the tenant check, and a
falsy `tenant_id` claim is reported as not found, as in the source. -/
def is_token_valid (now : Int) (issuer : String) (jwksKids : List String)
    (tok : JwtToken) (required_tenant_id : Option String) : ValidationResult :=
  if tok.raw = "" then .invalid "Token is empty."
  else
    match tok.kid with
    | none => .invalid "Token header missing \x27kid\x27."
    | some kid =>
      if kid = "" then .invalid "Token header missing \x27kid\x27."
      else if !(jwksKids.contains kid) then .invalid "No matching key found in JWKS."
      else if !tok.sigValid then .invalid "Invalid token: Signature verification failed"
      else if tok.claims.exp ≤ now then .invalid "Token has expired."
      else if tok.claims.aud ≠ "http://localhost:8081" then .invalid "Invalid audience."
      else if tok.claims.iss ≠ issuer then .invalid "Invalid issuer."
      else
        match required_tenant_id with
        | none => .valid tok.claims
        | some r =>
          if r = "" then .valid tok.claims
          else
            match tok.claims.tenant_id with
            | none => .invalid "\x27tenant_id\x27 claim not found in token."
            | some t =>
              if t = "" then .invalid "\x27tenant_id\x27 claim not found in token."
              else if t ≠ r then .invalid (tenantMismatchMsg t r)
              else .valid tok.claims

/-- Whether the character list `pat` starts the character list `l`. -/
def leadsB : List Char → List Char → Bool
  | [], _ => true
  | _ :: _, [] => false
  | a :: as, b :: bs => a == b && leadsB as bs

/-- Whether the character list `pat` occurs contiguously inside `l`. -/
def occursB (pat : List Char) : List Char → Bool
  | [] => leadsB pat []
  | x :: xs => leadsB pat (x :: xs) || occursB pat xs

/-- A human-readable message "mentions" a phrase when the phrase occurs
contiguously in it. -/
def mentionsB (pat msg : String) : Bool :=
  occursB pat.data msg.data

/-! ## Task store (contract consumed by the router)

Modelled from the spec: src/host_agent/persistent_task_store.py is not
part of the provided sources (only its callers and tests are), so the
store operations follow the contract of spec section 4.5: `save` is
insert-or-replace by id, `get` is lookup, `set_remote_task_id` records
the remote id and also advances the state to `working`, and
`task_failed` advances the state to `failed` recording the message.
Operations on an absent id leave the store unchanged. -/

/-- Task lifecycle states of the spec's transition table (section 4.4),
the subset of the a2a `TaskState` enumeration this system uses. -/
inductive PTaskState where
  | submitted
  | working
  | completed
  | failed
deriving DecidableEq

/-- A persisted Task record: the a2a `Task` with its `status.state`
flattened to `status` and its request message flattened to the
message's text part. -/
structure TaskRec where
  id : String
  contextId : String
  requestText : String
  status : PTaskState
  remoteTaskId : Option String := none
  failMessage : Option String := none
deriving DecidableEq

/-- The persistent task store state: tasks keyed by id. -/
def TaskStore : Type := List (String × TaskRec)

/-- Modelled from the spec: `save(task)` — insert-or-replace by id. -/
def storeSave (store : TaskStore) (t : TaskRec) : TaskStore :=
  alistErase store t.id ++ [(t.id, t)]

/-- Modelled from the spec: `get(id)`. -/
def storeGet (store : TaskStore) (tid : String) : Option TaskRec :=
  alistFind store tid

/-- Modelled from the spec: `set_remote_task_id(id, remote_id)`, which
also advances the state to `working`. -/
def storeSetRemoteTaskId (store : TaskStore) (tid rid : String) : TaskStore :=
  match alistFind store tid with
  | none => store
  | some t => storeSave store { t with remoteTaskId := some rid, status := .working }

/-- Modelled from the spec: `task_failed(id, message)`, which advances
the state to `failed` and records the message. -/
def storeTaskFailed (store : TaskStore) (tid : String) (msg : String) : TaskStore :=
  match alistFind store tid with
  | none => store
  | some t => storeSave store { t with status := .failed, failMessage := some msg }

/-- State of the task with a given id, if stored. -/
def taskStateOf (store : TaskStore) (tid : String) : Option PTaskState :=
  (alistFind store tid).map (fun t => t.status)

/-! ## Task router / orchestrator (host_agent/routing_agent.py) -/

/-- A skill of an agent card (a2a `AgentSkill`): `tags` are the
`"key:value"` strings used for capability matching; `none` models a
card without the optional tags field. -/
structure Skill where
  id : String
  name : String
  description : String
  tags : Option (List String)
deriving DecidableEq

/-- `ExtendedAgentCard` of routing_agent.py: the base card plus the
optional `security` descriptor, modelled as the association list of the
security dictionary (`none` absent, `some []` an empty dictionary,
which is falsy in Python). -/
structure ExtendedAgentCard where
  name : String
  url : String
  description : String
  skills : List Skill
  security : Option (List (String × String))
deriving DecidableEq

/-- The per-conversation session state fields read or written by the
router (`tool_context.state`), each `none` when the key is absent. -/
structure SessionState where
  tenant_id : Option String := none
  access_token : Option String := none
  refresh_token : Option String := none
  context_id : Option String := none
  active_agent : Option String := none
deriving DecidableEq

/-- The fixed list of tenant-specific agent types
(`tenant_specific_agents` in `_find_agent_card_by_type`). -/
def tenantSpecificAgents : List String := ["horizon"]

/-- Key of a `"key:value"` tag: the part before the first colon
(`tag.split(":", 1)[0]`). -/
def tagKey (tag : String) : String :=
  String.mk (tag.data.takeWhile (fun ch => ch ≠ ':'))

/-- Value of a `"key:value"` tag: the part after the first colon
(`tag.split(":", 1)[1]`). -/
def tagVal (tag : String) : String :=
  String.mk ((tag.data.dropWhile (fun ch => ch ≠ ':')).drop 1)

/-- Python dict assignment `d[k] = v` on an association list with unique
keys: replace in place, else append. -/
def dictInsert (d : List (String × String)) (k v : String) : List (String × String) :=
  if (alistFind d k).isSome then
    d.map (fun p => if p.1 = k then (k, v) else p)
  else d ++ [(k, v)]

/-- The tag-parsing loop of `_find_agent_card_by_type`: the dictionary
built from the colon-separated tags (tags without a colon skipped). -/
def parseTags (tags : List String) : List (String × String) :=
  tags.foldl
    (fun d tag => if tag.data.contains ':' then dictInsert d (tagKey tag) (tagVal tag) else d)
    []

/-- `filter_query.items() <= skill_tags_dict.items()`: every filter pair
occurs in the parsed tag dictionary. -/
def itemsSubset (fq d : List (String × String)) : Bool :=
  fq.all (fun p => alistFind d p.1 == some p.2)

/-- The filter construction of `_find_agent_card_by_type` lines 323-333:
`{"type": agent_type}`, extended with the session's tenant id for
tenant-specific types; `none` when a tenant-specific type has no
(truthy) tenant id in the session, in which case the source returns
no agent. -/
def buildFilterQuery (agent_type : String) (stateTenant : Option String) :
    Option (List (String × String)) :=
  let fq := [("type", agent_type)]
  if tenantSpecificAgents.contains agent_type then
    match stateTenant with
    | none => none
    | some t => if t = "" then none else some (fq ++ [("tenant_id", t)])
  else some fq

/-- The body of the inner loop of `_find_agent_card_by_type` for one
skill: a skill with falsy tags is skipped (`if not skill.tags:
continue`); otherwise the parsed tag dictionary is tested against the
filter. -/
def skillTagsHit (fq : List (String × String)) (sk : Skill) : Bool :=
  match sk.tags with
  | none => false
  | some ts => if ts.isEmpty then false else itemsSubset fq (parseTags ts)

/-- The inner loop of `_find_agent_card_by_type` over one card's
skills. -/
def scanSkills (fq : List (String × String)) : List Skill → Bool
  | [] => false
  | sk :: rest => if skillTagsHit fq sk then true else scanSkills fq rest

/-- The outer loop of `_find_agent_card_by_type` over the registered
cards, in registration order. -/
def scanCards (fq : List (String × String)) : List ExtendedAgentCard → Option ExtendedAgentCard
  | [] => none
  | c :: rest =>
    if c.skills.isEmpty then scanCards fq rest
    else if scanSkills fq c.skills then some c
    else scanCards fq rest

/-- `_find_agent_card_by_type(agent_type, state)` of routing_agent.py;
`stateTenant` is `state.get("tenant_id")`, the only state field the
function reads, and `cards` is `self.cards.values()` in registration
order. -/
def find_agent_card_by_type (cards : List ExtendedAgentCard) (agent_type : String)
    (stateTenant : Option String) : Option ExtendedAgentCard :=
  match buildFilterQuery agent_type stateTenant with
  | none => none
  | some fq => scanCards fq cards

/-- Specification-level predicate: the skill has truthy tags whose
parsed tag-set is a superset of the filter query. -/
def SkillHit (fq : List (String × String)) (sk : Skill) : Prop :=
  ∃ ts, sk.tags = some ts ∧ ts ≠ [] ∧
    ∀ p ∈ fq, alistFind (parseTags ts) p.1 = some p.2

/-- Specification-level matching predicate: the card has a skill with
truthy tags whose parsed tag-set is a superset of the filter query. -/
def IsSupersetMatch (fq : List (String × String)) (c : ExtendedAgentCard) : Prop :=
  ∃ sk ∈ c.skills, SkillHit fq sk

/-- The query-parameter dictionary built by `initiate_oauth_flow`
(routing_agent.py lines 301-307), in source order; `state` is the
`json.dumps({"task_id": task_id})` string. -/
structure OauthParams where
  response_type : String
  client_id : String
  redirect_uri : String
  scope : String
  state : String
deriving DecidableEq

/-- `json.dumps({"task_id": task_id})` for a task id containing no
character needing JSON escaping. -/
def jsonDumpsTaskId (task_id : String) : String :=
  "\x7b\"task_id\": \"" ++ task_id ++ "\"\x7d"

/-- The authorization URL `f"{auth_uri}?{urlencode(params)}"`, kept
structured: its base and its query parameters (the percent-encoding by
`urlencode` is an external library call). -/
structure AuthorizationUrl where
  base : String
  params : OauthParams
deriving DecidableEq

/-- Return value of `initiate_oauth_flow`: either the error dictionary
`{"error": ...}` or the dictionary
`{"redirect_url": ..., "task_id": ...}`. -/
inductive OauthFlowResult where
  | errDict (error : String)
  | redirectDict (redirect_url : AuthorizationUrl) (task_id : String)
deriving DecidableEq

/-- The default of `os.getenv("REDIRECT_URI", ...)` in
`initiate_oauth_flow`. -/
def REDIRECT_URI_DEFAULT : String := "http://localhost:8083/callback"

/-- `os.getenv(name, default)`. -/
def getenvOr (env : Option String) (default : String) : String :=
  match env with
  | none => default
  | some v => v

/-- `initiate_oauth_flow(agent_name, security_details, task_id)` of
routing_agent.py, with the `REDIRECT_URI` environment variable a
parameter.  A falsy `authorization_uri` in the security details yields
the error dictionary; otherwise the authorization URL is built with
`response_type=code`, `client_id=<agent name>`, the fixed scopes, and
`state` carrying the task id as JSON. -/
def initiate_oauth_flow (agent_name : String) (security_details : List (String × String))
    (task_id : String) (redirectUriEnv : Option String) : OauthFlowResult :=
  match alistFind security_details "authorization_uri" with
  | none => .errDict "Authorization URI not found in security details."
  | some auth_uri =>
    if auth_uri = "" then .errDict "Authorization URI not found in security details."
    else
      .redirectDict
        { base := auth_uri
          params :=
            { response_type := "code"
              client_id := agent_name
              redirect_uri := getenvOr redirectUriEnv REDIRECT_URI_DEFAULT
              scope := "openid profile email api:read"
              state := jsonDumpsTaskId task_id } }
        task_id

/-- The response a remote agent returns to one `send_message` call, as
discriminated by `_send_message_and_process_response`: a successful
response whose result is a Task (with its remote id), a successful
response whose result is not a Task, or an error response with its
message. -/
inductive RemoteSendResponse where
  | successTask (remoteId : String)
  | successNonTask
  | errorResponse (message : String)
deriving DecidableEq

/-- `_send_message_and_process_response(agent_name, message_request,
headers, task_id)` of routing_agent.py lines 358-392.  `connections`
is the set of agent names with a remote connection; `resp` is the
response the remote returns to the single `send_message` call the
function makes.  The returned number counts the remote `send_message`
calls performed: the function sends at most once and never consults
the session's refresh token — any non-success response, including an
expired-token error, marks the task failed with the message
"Failed to send message". -/
def send_message_and_process_response (connections : List String) (agent_name : String)
    (resp : RemoteSendResponse) (task_id : String) (store : TaskStore) :
    TaskStore × Nat :=
  if !(connections.contains agent_name) then (store, 0)
  else
    match resp with
    | .successTask remoteId => (storeSetRemoteTaskId store task_id remoteId, 1)
    | .successNonTask => (storeTaskFailed store task_id "Failed to send message", 1)
    | .errorResponse _ => (storeTaskFailed store task_id "Failed to send message", 1)

/-- The module-level names bound by the import statements of
routing_agent.py (lines 24-50): `json`, `logging`, `os`, `uuid`,
`urlencode`, `httpx`, the a2a types, `load_dotenv`, the ADK names and
the two relative imports.  Notably `asyncio` is not among them although
line 472 calls `asyncio.create_task`. -/
def routingAgentImportedNames : List String :=
  ["json", "logging", "os", "uuid", "urlencode", "httpx",
   "AgentCard", "Message", "MessageSendParams", "Part", "SendMessageRequest",
   "SendMessageResponse", "SendMessageSuccessResponse", "Task", "TaskState",
   "TaskStatus", "load_dotenv", "Agent", "CallbackContext", "ReadonlyContext",
   "ToolContext", "PersistentTaskStore", "RemoteAgentConnections",
   "TaskUpdateCallback"]

/-- The background unit of work `send_message` hands to
`asyncio.create_task`: the arguments of
`_send_message_and_process_response`. -/
structure DispatchJob where
  agentName : String
  taskId : String
  messageText : String
  authHeader : Option String
deriving DecidableEq

/-- Outcome of `send_message`: the apology string when no card matches,
the JSON-serialised `initiate_oauth_flow` dictionary, the confirmation
string together with the spawned background job, or an uncaught Python
`NameError` (an unbound module-level name). -/
inductive SendOutcome where
  | noAgent (text : String)
  | oauthJson (payload : OauthFlowResult)
  | confirmation (text : String) (job : DispatchJob)
  | nameErr (missing : String)
deriving DecidableEq

/-- Whether a `send_message` outcome spawned a background dispatch (the
only path on which the remote agent is ever contacted). -/
def outcomeSpawnsDispatch : SendOutcome → Bool
  | .confirmation _ _ => true
  | _ => false

/-- `send_message(agent_type, task, tool_context)` of routing_agent.py
lines 394-479.  The fresh UUID4 values (`task_id`, the fallback
`context_id`) are parameters; `redirectUriEnv` is the `REDIRECT_URI`
environment variable.  Step order is the source's: find card, persist
the new submitted task, branch to the OAuth flow when the card's
`security` dictionary is truthy and the session access token is falsy,
otherwise set `active_agent`, build the bearer header, and reach
`asyncio.create_task` — which raises `NameError` because `asyncio` is
absent from `routingAgentImportedNames`. -/
def send_message (cards : List ExtendedAgentCard) (state : SessionState)
    (agent_type task : String) (freshTaskId freshContextId : String)
    (redirectUriEnv : Option String) (store : TaskStore) :
    SendOutcome × TaskStore × SessionState :=
  match find_agent_card_by_type cards agent_type state.tenant_id with
  | none =>
    (.noAgent ("I\x27m sorry, I can\x27t find an agent with the type \x27" ++ agent_type ++
        "\x27. Please choose from the available agent types."), store, state)
  | some card =>
    let context_id :=
      if strTruthy state.context_id then state.context_id.getD "" else freshContextId
    let state1 := { state with context_id := some context_id }
    let newTask : TaskRec :=
      { id := freshTaskId, contextId := context_id, requestText := task,
        status := .submitted }
    let store1 := storeSave store newTask
    let securityTruthy :=
      match card.security with
      | none => false
      | some d => !d.isEmpty
    if securityTruthy && !(strTruthy state1.access_token) then
      (.oauthJson (initiate_oauth_flow card.name (card.security.getD []) freshTaskId
          redirectUriEnv), store1, state1)
    else
      let state2 := { state1 with active_agent := some card.name }
      let authHeader :=
        if strTruthy state1.access_token then
          some ("Bearer " ++ state1.access_token.getD "")
        else none
      if routingAgentImportedNames.contains "asyncio" then
        (.confirmation ("I\x27ve started working on that for you. The task ID is " ++
            freshTaskId ++ ".")
          { agentName := card.name, taskId := freshTaskId, messageText := task,
            authHeader := authHeader }, store1, state2)
      else (.nameErr "asyncio", store1, state2)

/-! ## OAuth callback handler (host_agent/__main__.py) -/

/-- Result of `handle_callback`: a 400-class error string, the
token-exchange failure response, or the final redirect to the UI. -/
inductive CallbackResult where
  | badRequest (msg : String)
  | exchangeFailed
  | redirectHome
deriving DecidableEq

/-- `handle_callback` of host_agent/__main__.py lines 37-97.
`codeParam` and `stateParam` are the query parameters; `parsedState`
models `json.loads(state).get("task_id")` (the JSON parsing is an
external library call): `none` is a parse failure, `some none` a parse
without a `task_id` key, `some (some tid)` a parsed task id.
`exchangeStatus` and `tokenData` model the status code and the
`access_token`/`refresh_token` fields of the external token-endpoint
response.  On success the handler writes the tokens into the session
state and sets the task's state to `working` unconditionally — whatever
state the task was in. -/
def handle_callback (store : TaskStore) (session : SessionState)
    (codeParam stateParam : Option String) (parsedState : Option (Option String))
    (exchangeStatus : Nat) (tokenData : Option String × Option String) :
    CallbackResult × TaskStore × SessionState :=
  if !(strTruthy codeParam) || !(strTruthy stateParam) then
    (.badRequest "Error: Missing code or state.", store, session)
  else
    match parsedState with
    | none => (.badRequest "Error: Invalid state format.", store, session)
    | some taskIdOpt =>
      if !(strTruthy taskIdOpt) then
        (.badRequest "Error: task_id not in state.", store, session)
      else
        let task_id := taskIdOpt.getD ""
        if exchangeStatus ≠ 200 then (.exchangeFailed, store, session)
        else
          let session1 :=
            { session with access_token := tokenData.1, refresh_token := tokenData.2 }
          let store1 :=
            match storeGet store task_id with
            | none => store
            | some t => storeSave store { t with status := .working }
          (.redirectHome, store1, session1)

/-- Forward order on task states per the spec's transition table:
`submitted → working → completed | failed`, terminal states only
reaching themselves. -/
def stateForward : PTaskState → PTaskState → Bool
  | .submitted, _ => true
  | .working, .submitted => false
  | .working, _ => true
  | .completed, s => s == .completed
  | .failed, s => s == .failed

/-! ## Concrete fixtures used by witnesses and counterexamples

These mirror the agent cards of host_agent/test_routing_agent.py. -/

/-- The non-secure weather card of the router tests. -/
def weatherCard : ExtendedAgentCard :=
  { name := "Weather Agent", url := "http://weather.agent",
    description := "Provides weather forecasts.",
    skills := [{ id := "get_weather", name := "Get Weather",
                 description := "Gets the weather.", tags := some ["type:weather"] }],
    security := none }

/-- The secure tenant-scoped horizon card of the router tests. -/
def horizonCard : ExtendedAgentCard :=
  { name := "Horizon Agent - Tenant ABC", url := "http://horizon.agent",
    description := "Secure order status agent.",
    skills := [{ id := "get_order_status", name := "Get Order Status",
                 description := "Gets order status.",
                 tags := some ["type:horizon", "tenant_id:tenant-abc"] }],
    security := some [("authorization_uri", "http://idp/auth")] }

/-- A variant of the horizon card whose security dictionary is truthy
but lacks `authorization_uri`. -/
def horizonCardNoAuthUri : ExtendedAgentCard :=
  { horizonCard with security := some [("token_uri", "http://idp/generate-token")] }

/-- Whether an `initiate_oauth_flow` result dictionary carries a
`redirect_url` key. -/
def oauthPayloadHasRedirectUrl : OauthFlowResult → Bool
  | .redirectDict _ _ => true
  | .errDict _ => false

/-- The user `john.doe` of `USER_REGISTRY`. -/
def demoUser : User :=
  { password := "password123", sub := "john.doe", profile := "I am John Doe.",
    email := "john.doe @example.com", tenant_id := "tenant-abc" }

/-- A concrete stand-in for the external challenge computation
`base64url(sha256(v))` used to instantiate theorems that are universal
in the hash. -/
def s256demo : String → String := fun v => "hash-" ++ v

/-- A stored authorization code issued to `weather_agent` with a PKCE
challenge for the verifier "demo-verifier" under `s256demo`. -/
def pkceCodeData : AuthCodeData :=
  { client_id := "weather_agent", user := demoUser,
    scopes := ["api:read", "openid"],
    redirect_uri := "http://localhost:8083/callback", expires_at := 1000,
    code_challenge := some (s256demo "demo-verifier"),
    code_challenge_method := some "S256" }

/-- The authorization-code store holding `pkceCodeData` under the code
"demo-code". -/
def pkceCodes : List (String × AuthCodeData) := [("demo-code", pkceCodeData)]

/-- A well-formed PKCE token-exchange request for `pkceCodeData`. -/
def pkceRequest : TokenRequest :=
  { basicCreds := none, form_client_id := some "weather_agent",
    form_client_secret := some "weather_secret",
    grant_type := some "authorization_code", scope := none,
    code := some "demo-code", redirect_uri := some "http://localhost:8083/callback",
    code_verifier := some "demo-verifier" }

/-- The same exchange request with a wrong `redirect_uri`. -/
def pkceRequestWrongRedirect : TokenRequest :=
  { pkceRequest with redirect_uri := some "http://evil.example/callback" }

/-- A `client_credentials` request by `weather_agent` with no `scope`
form field. -/
def ccEmptyScopeRequest : TokenRequest :=
  { basicCreds := none, form_client_id := some "weather_agent",
    form_client_secret := some "weather_secret",
    grant_type := some "client_credentials", scope := none,
    code := none, redirect_uri := none, code_verifier := none }

/-- A signed token whose `exp` (100) is in the past relative to the
validation time used by the expiry witness (now = 150). -/
def expiredTok : JwtToken :=
  { raw := "expired-token", kid := some "test-key", alg := "RS256", sigValid := true,
    claims := { sub := "test-user", exp := 100, aud := "http://localhost:8081",
                iss := "http://localhost:5000", tenant_id := some "tenant-abc" } }

/-- An otherwise-valid token whose `tenant_id` claim is present but
empty — it differs from any nonempty required tenant. -/
def emptyTenantTok : JwtToken :=
  { raw := "empty-tenant-token", kid := some "test-key", alg := "RS256", sigValid := true,
    claims := { sub := "test-user", exp := 1000, aud := "http://localhost:8081",
                iss := "http://localhost:5000", tenant_id := some "" } }

/-- An otherwise-valid token carrying `tenant_id` "tenant-xyz". -/
def xyzTenantTok : JwtToken :=
  { emptyTenantTok with
    raw := "xyz-tenant-token"
    claims := { emptyTenantTok.claims with tenant_id := some "tenant-xyz" } }

/-- A store holding one submitted task "t1", as persisted by
`send_message` before dispatching. -/
def c2Store : TaskStore :=
  storeSave [] { id := "t1", contextId := "ctx", requestText := "check my order",
                 status := .submitted }

/-- The background dispatch outcome when the remote agent answers the
single call with the expired-token error, the session holding a refresh
token (which the source never reads). -/
def c2Result : TaskStore × Nat :=
  send_message_and_process_response ["Horizon Agent - Tenant ABC"]
    "Horizon Agent - Tenant ABC" (.errorResponse "Token has expired.") "t1" c2Store

/-- A full `send_message` run against the non-secure weather card with
an empty session. -/
def c8Result : SendOutcome × TaskStore × SessionState :=
  send_message [weatherCard] {} "weather" "what is the weather in london"
    "t1" "ctx1" none []

/-- Store after `send_message` created task "t1" (submitted). -/
def c3Store1 : TaskStore := c8Result.2.1

/-- Store after the background dispatch for "t1" failed: the task is in
the terminal state `failed`. -/
def c3Store2 : TaskStore :=
  (send_message_and_process_response ["Weather Agent"] "Weather Agent"
    (.errorResponse "boom") "t1" c3Store1).1

/-- An OAuth callback replayed for the already-failed task "t1", with a
successful token exchange. -/
def c3Callback : CallbackResult × TaskStore × SessionState :=
  handle_callback c3Store2 {} (some "authcode") (some (jsonDumpsTaskId "t1"))
    (some (some "t1")) 200 (some "new-access-token", none)

/-- A `send_message` run hitting the secured horizon card whose
security dictionary lacks `authorization_uri`, with no access token in
the session. -/
def c4Result : SendOutcome × TaskStore × SessionState :=
  send_message [weatherCard, horizonCardNoAuthUri] { tenant_id := some "tenant-abc" }
    "horizon" "check my order" "t2" "ctx2" none []

/-! ## Helper lemmas -/

theorem strTruthy_none : strTruthy none = false := rfl

theorem strTruthy_some_ne {s : String} (h : s ≠ "") : strTruthy (some s) = true := by
  simp [strTruthy, h]

theorem string_data_append (s t : String) : (s ++ t).data = s.data ++ t.data := by
  cases s; cases t; rfl

theorem leadsB_self_append (p q : List Char) : leadsB p (p ++ q) = true := by
  induction p with
  | nil => rfl
  | cons a as ih => simp [leadsB, ih]

theorem occursB_of_leadsB {p l : List Char} (h : leadsB p l = true) : occursB p l = true := by
  cases l with
  | nil => simpa [occursB] using h
  | cons x xs => simp [occursB, h]

theorem occursB_append (pat pre post : List Char) :
    occursB pat (pre ++ pat ++ post) = true := by
  induction pre with
  | nil => simpa using occursB_of_leadsB (leadsB_self_append pat post)
  | cons a as ih =>
    simp only [List.cons_append]
    simp only [occursB, Bool.or_eq_true]
    exact Or.inr (by simpa [List.append_assoc] using ih)

theorem mentionsB_tenantMismatchMsg (t r : String) :
    mentionsB "does not match required tenant_id" (tenantMismatchMsg t r) = true := by
  unfold mentionsB tenantMismatchMsg
  rw [string_data_append, string_data_append, string_data_append, string_data_append]
  have hmid : (") does not match required tenant_id (" : String).data =
      (") " : String).data ++ (("does not match required tenant_id" : String).data ++
        (" (" : String).data) := by decide
  rw [hmid]
  have h := occursB_append ("does not match required tenant_id" : String).data
    (("Token \x27tenant_id\x27 (" : String).data ++ t.data ++ (") " : String).data)
    ((" (" : String).data ++ r.data ++ ((")." : String).data))
  simpa [List.append_assoc] using h

theorem alistFind_erase {α : Type} (l : List (String × α)) (k : String) :
    alistFind (alistErase l k) k = none := by
  induction l with
  | nil => rfl
  | cons p rest ih =>
    by_cases h : p.1 = k
    · simpa [alistErase, h] using ih
    · simp [alistErase, alistFind, h, ih]

theorem alistErase_erase {α : Type} (l : List (String × α)) (k : String) :
    alistErase (alistErase l k) k = alistErase l k := by
  induction l with
  | nil => rfl
  | cons p rest ih =>
    by_cases h : p.1 = k
    · simp [alistErase, h, ih]
    · simp [alistErase, h, ih]

theorem alistFind_append {α : Type} (l1 l2 : List (String × α)) (k : String) :
    alistFind (l1 ++ l2) k =
      match alistFind l1 k with
      | some v => some v
      | none => alistFind l2 k := by
  induction l1 with
  | nil => rfl
  | cons p rest ih =>
    by_cases h : p.1 = k
    · simp [alistFind, h]
    · simp [alistFind, h, ih]

theorem storeGet_save_self (store : TaskStore) (t : TaskRec) :
    alistFind (storeSave store t) t.id = some t := by
  unfold storeSave
  rw [alistFind_append, alistFind_erase]
  simp [alistFind]

theorem taskStateOf_save_self (store : TaskStore) (t : TaskRec) :
    taskStateOf (storeSave store t) t.id = some t.status := by
  unfold taskStateOf
  rw [storeGet_save_self]
  rfl

theorem alistFind_save (store : TaskStore) (t : TaskRec) (k : String) (h : t.id = k) :
    alistFind (storeSave store t) k = some t := by
  subst h
  exact storeGet_save_self store t

theorem taskStateOf_save (store : TaskStore) (t : TaskRec) (k : String) (h : t.id = k) :
    taskStateOf (storeSave store t) k = some t.status := by
  subst h
  exact taskStateOf_save_self store t

theorem list_isEmpty_true {α : Type} {l : List α} (h : l.isEmpty = true) : l = [] := by
  cases l with
  | nil => rfl
  | cons a l => simp [List.isEmpty] at h

theorem list_isEmpty_false {α : Type} {l : List α} (h : l ≠ []) : l.isEmpty = false := by
  cases l with
  | nil => exact absurd rfl h
  | cons a l => rfl

theorem itemsSubset_iff (fq d : List (String × String)) :
    itemsSubset fq d = true ↔ ∀ p ∈ fq, alistFind d p.1 = some p.2 := by
  simp [itemsSubset, List.all_eq_true]

theorem skillTagsHit_iff (fq : List (String × String)) (sk : Skill) :
    skillTagsHit fq sk = true ↔ SkillHit fq sk := by
  cases h : sk.tags with
  | none => simp [skillTagsHit, h, SkillHit]
  | some ts =>
    by_cases hts : ts.isEmpty = true
    · have hnil : ts = [] := list_isEmpty_true hts
      subst hnil
      simp [skillTagsHit, h, SkillHit]
    · have htne : ts ≠ [] := by
        intro hnil
        rw [hnil] at hts
        exact hts rfl
      simp [skillTagsHit, h, SkillHit, hts, htne, itemsSubset_iff]

theorem scanSkills_iff (fq : List (String × String)) (l : List Skill) :
    scanSkills fq l = true ↔ ∃ sk ∈ l, SkillHit fq sk := by
  induction l with
  | nil => simp [scanSkills]
  | cons sk rest ih =>
    constructor
    · intro h
      unfold scanSkills at h
      by_cases hhit : skillTagsHit fq sk = true
      · exact ⟨sk, List.mem_cons_self _ _, (skillTagsHit_iff fq sk).mp hhit⟩
      · rw [if_neg hhit] at h
        obtain ⟨sk2, hm, hh⟩ := ih.mp h
        exact ⟨sk2, List.mem_cons_of_mem _ hm, hh⟩
    · rintro ⟨sk2, hmem, hh⟩
      unfold scanSkills
      rcases List.mem_cons.mp hmem with heq | hmem2
      · subst heq
        rw [if_pos ((skillTagsHit_iff fq sk2).mpr hh)]
      · by_cases hhit : skillTagsHit fq sk = true
        · rw [if_pos hhit]
        · rw [if_neg hhit]
          exact ih.mpr ⟨sk2, hmem2, hh⟩

theorem scanCards_some (fq : List (String × String)) (cards : List ExtendedAgentCard)
    (c : ExtendedAgentCard) (h : scanCards fq cards = some c) :
    IsSupersetMatch fq c ∧
      ∃ pre suf, cards = pre ++ c :: suf ∧ ∀ cb ∈ pre, ¬ IsSupersetMatch fq cb := by
  induction cards with
  | nil => exact absurd h (by simp [scanCards])
  | cons a rest ih =>
    unfold scanCards at h
    by_cases hsk : a.skills.isEmpty = true
    · rw [if_pos hsk] at h
      obtain ⟨hm, pre, suf, hdec, hpre⟩ := ih h
      refine ⟨hm, a :: pre, suf, by rw [hdec]; rfl, ?_⟩
      intro cb hcb
      rcases List.mem_cons.mp hcb with heq | hcb2
      · subst heq
        rintro ⟨sk, hskm, _⟩
        rw [list_isEmpty_true hsk] at hskm
        exact absurd hskm (List.not_mem_nil _)
      · exact hpre cb hcb2
    · rw [if_neg hsk] at h
      by_cases hscan : scanSkills fq a.skills = true
      · rw [if_pos hscan] at h
        obtain rfl : a = c := by injection h
        exact ⟨(scanSkills_iff _ _).mp hscan, [], rest, rfl, by simp⟩
      · rw [if_neg hscan] at h
        obtain ⟨hm, pre, suf, hdec, hpre⟩ := ih h
        refine ⟨hm, a :: pre, suf, by rw [hdec]; rfl, ?_⟩
        intro cb hcb
        rcases List.mem_cons.mp hcb with heq | hcb2
        · subst heq
          intro hmatch
          exact hscan ((scanSkills_iff _ _).mpr hmatch)
        · exact hpre cb hcb2

theorem scanCards_none (fq : List (String × String)) (cards : List ExtendedAgentCard)
    (h : scanCards fq cards = none) : ∀ c ∈ cards, ¬ IsSupersetMatch fq c := by
  induction cards with
  | nil => intro c hc; exact absurd hc (List.not_mem_nil _)
  | cons a rest ih =>
    unfold scanCards at h
    intro c hc
    rcases List.mem_cons.mp hc with heq | hc2
    · subst heq
      by_cases hsk : c.skills.isEmpty = true
      · rintro ⟨sk, hskm, _⟩
        rw [list_isEmpty_true hsk] at hskm
        exact absurd hskm (List.not_mem_nil _)
      · rw [if_neg hsk] at h
        intro hmatch
        have hscan := (scanSkills_iff _ _).mpr hmatch
        rw [if_pos hscan] at h
        exact absurd h (by simp)
    · by_cases hsk : a.skills.isEmpty = true
      · rw [if_pos hsk] at h
        exact ih h c hc2
      · rw [if_neg hsk] at h
        by_cases hscan : scanSkills fq a.skills = true
        · rw [if_pos hscan] at h
          exact absurd h (by simp)
        · rw [if_neg hscan] at h
          exact ih h c hc2

/-! ## Claim theorems -/

/-- C7: agent resolution builds the filter (capability type plus, for
tenant-scoped types, the session tenant id — resolving to no agent when
that tenant id is missing), and selects exactly the first card in
registration order one of whose skills' colon-parsed tag-sets is a
superset of the filter; a card without a superset skill is never
selected, and when no card has one the resolution returns none. -/
theorem find_agent_first_superset_match (cards : List ExtendedAgentCard)
    (agent_type : String) (stateTenant : Option String) :
    (tenantSpecificAgents.contains agent_type = true →
      (stateTenant = none ∨ stateTenant = some "") →
      find_agent_card_by_type cards agent_type stateTenant = none)
    ∧ (tenantSpecificAgents.contains agent_type = false →
        buildFilterQuery agent_type stateTenant = some [("type", agent_type)])
    ∧ (∀ t, tenantSpecificAgents.contains agent_type = true → stateTenant = some t →
        t ≠ "" →
        buildFilterQuery agent_type stateTenant =
          some [("type", agent_type), ("tenant_id", t)])
    ∧ (∀ fq, buildFilterQuery agent_type stateTenant = some fq →
        (∀ c, find_agent_card_by_type cards agent_type stateTenant = some c →
          IsSupersetMatch fq c ∧
            ∃ pre suf, cards = pre ++ c :: suf ∧ ∀ cb ∈ pre, ¬ IsSupersetMatch fq cb)
        ∧ (find_agent_card_by_type cards agent_type stateTenant = none →
            ∀ c ∈ cards, ¬ IsSupersetMatch fq c)) := by
  refine ⟨?_, ?_, ?_, ?_⟩
  · intro hts hmiss
    have hmem : agent_type ∈ tenantSpecificAgents := by simpa using hts
    rcases hmiss with h | h <;>
      simp [find_agent_card_by_type, buildFilterQuery, hmem, h]
  · intro hts
    have hnmem : agent_type ∉ tenantSpecificAgents := by simpa using hts
    simp [buildFilterQuery, hnmem]
  · intro t hts hsome hne
    have hmem : agent_type ∈ tenantSpecificAgents := by simpa using hts
    simp [buildFilterQuery, hmem, hsome, hne]
  · intro fq hfq
    have heq : find_agent_card_by_type cards agent_type stateTenant = scanCards fq cards := by
      unfold find_agent_card_by_type
      rw [hfq]
    constructor
    · intro c hc
      rw [heq] at hc
      exact scanCards_some fq cards c hc
    · intro hnone
      rw [heq] at hnone
      exact scanCards_none fq cards hnone

/-- Witness for C7 at the router tests' cards: a tenant-scoped request
without a session tenant id resolves to no agent. -/
theorem find_agent_first_superset_match_witness :
    find_agent_card_by_type [weatherCard, horizonCard] "horizon" none = none :=
  (find_agent_first_superset_match [weatherCard, horizonCard] "horizon" none).1
    (by decide) (Or.inl rfl)

/-- C5: a nonempty token whose header carries a kid matching a cached
JWKS key and whose signature verifies, but whose exp is in the past, is
rejected with the reason exactly "Token has expired.", whatever the
issuer, audience claim and tenant requirement. -/
theorem validator_expired_token_reason (now : Int) (issuer : String)
    (jwksKids : List String) (tok : JwtToken) (required : Option String)
    (k : String)
    (hraw : tok.raw ≠ "") (hkid : tok.kid = some k) (hk : k ≠ "")
    (hks : jwksKids.contains k = true) (hsig : tok.sigValid = true)
    (hexp : tok.claims.exp < now) :
    is_token_valid now issuer jwksKids tok required = .invalid "Token has expired." := by
  have hkm : k ∈ jwksKids := by simpa using hks
  simp [is_token_valid, hraw, hkid, hk, hkm, hsig, le_of_lt hexp]

/-- Witness for C5: the concrete expired token. -/
theorem validator_expired_token_reason_witness :
    is_token_valid 150 "http://localhost:5000" ["test-key"] expiredTok (some "tenant-abc") =
      .invalid "Token has expired." :=
  validator_expired_token_reason 150 "http://localhost:5000" ["test-key"] expiredTok
    (some "tenant-abc") "test-key" (by decide) (by decide) (by decide) (by decide)
    (by decide) (by decide)

/-- C6 counterexample: an otherwise-valid token whose tenant_id claim
is present but empty differs from the required "tenant-abc", yet the
validator reports the claim as not found — the message does not mention
"does not match required tenant_id" as the claim requires for a
differing claim. -/
theorem validator_tenant_empty_claim_cex :
    emptyTenantTok.claims.tenant_id = some "" ∧
    emptyTenantTok.claims.tenant_id ≠ none ∧
    emptyTenantTok.claims.tenant_id ≠ some "tenant-abc" ∧
    is_token_valid 150 "http://localhost:5000" ["test-key"] emptyTenantTok
      (some "tenant-abc") = .invalid "\x27tenant_id\x27 claim not found in token." ∧
    mentionsB "does not match required tenant_id"
      "\x27tenant_id\x27 claim not found in token." = false := by
  decide

/-- C6 (amended): with a nonempty required tenant id, an otherwise
valid token fails with the not-found message when its tenant_id claim
is absent or empty; fails with a message mentioning "does not match
required tenant_id" when the claim is nonempty and differs; and
validates to its decoded claims when the claim equals the
requirement. -/
theorem validator_tenant_checks_amended (now : Int) (issuer : String)
    (jwksKids : List String) (tok : JwtToken) (r : String) (k : String)
    (hraw : tok.raw ≠ "") (hkid : tok.kid = some k) (hk : k ≠ "")
    (hks : jwksKids.contains k = true) (hsig : tok.sigValid = true)
    (hexp : now < tok.claims.exp) (haud : tok.claims.aud = "http://localhost:8081")
    (hiss : tok.claims.iss = issuer) (hr : r ≠ "") :
    ((tok.claims.tenant_id = none ∨ tok.claims.tenant_id = some "") →
      is_token_valid now issuer jwksKids tok (some r) =
        .invalid "\x27tenant_id\x27 claim not found in token.")
    ∧ (∀ t, tok.claims.tenant_id = some t → t ≠ "" → t ≠ r →
        is_token_valid now issuer jwksKids tok (some r) =
          .invalid (tenantMismatchMsg t r)
        ∧ mentionsB "does not match required tenant_id" (tenantMismatchMsg t r) = true)
    ∧ (tok.claims.tenant_id = some r →
        is_token_valid now issuer jwksKids tok (some r) = .valid tok.claims) := by
  have hnotle : ¬ tok.claims.exp ≤ now := not_le.mpr hexp
  have hkm : k ∈ jwksKids := by simpa using hks
  refine ⟨?_, ?_, ?_⟩
  · rintro (h | h) <;>
      simp [is_token_valid, hraw, hkid, hk, hkm, hsig, hnotle, haud, hiss, hr, h]
  · intro t ht htne htr
    refine ⟨?_, mentionsB_tenantMismatchMsg t r⟩
    simp [is_token_valid, hraw, hkid, hk, hkm, hsig, hnotle, haud, hiss, hr, ht, htne, htr]
  · intro h
    simp [is_token_valid, hraw, hkid, hk, hkm, hsig, hnotle, haud, hiss, hr, h]

/-- Witness for amended C6: the token carrying tenant "tenant-xyz"
checked against required tenant "tenant-abc" yields the mismatch
message. -/
theorem validator_tenant_checks_amended_witness :
    is_token_valid 150 "http://localhost:5000" ["test-key"] xyzTenantTok
      (some "tenant-abc") = .invalid (tenantMismatchMsg "tenant-xyz" "tenant-abc") :=
  ((validator_tenant_checks_amended 150 "http://localhost:5000" ["test-key"] xyzTenantTok
      "tenant-abc" "test-key" (by decide) (by decide) (by decide) (by decide) (by decide)
      (by decide) (by decide) (by decide) (by decide)).2.1 "tenant-xyz" (by decide)
      (by decide) (by decide)).1

/-- C1: a PKCE authorization-code exchange with authenticated client,
matching redirect uri and client id, unexpired code and a verifier
hashing to the stored challenge succeeds, issuing an access token and
an ID token bound to the code's original user and scopes, and deletes
the code; an identical second exchange fails with invalid_grant. -/
theorem idp_pkce_code_single_use (s256 : String → String)
    (registry : List (String × Client)) (now now2 : Nat)
    (codes : List (String × AuthCodeData)) (req : TokenRequest)
    (cid : String) (client : Client) (c v : String) (d : AuthCodeData)
    (hb : req.basicCreds = none)
    (hfc : req.form_client_id = some cid)
    (hfs : req.form_client_secret = some client.client_secret)
    (hreg : alistFind registry cid = some client)
    (hg : req.grant_type = some "authorization_code")
    (hcode : req.code = some c)
    (hstore : alistFind codes c = some d)
    (hru : req.redirect_uri = some d.redirect_uri)
    (hcid : d.client_id = cid)
    (hexp : now ≤ d.expires_at)
    (hch : d.code_challenge = some (s256 v))
    (hchne : s256 v ≠ "")
    (hver : req.code_verifier = some v)
    (hvne : v ≠ "")
    (hsub : d.user.sub ≠ "")
    (hten : d.user.tenant_id ≠ "") :
    generate_token s256 registry now codes req =
      (.ok (.jwtTok { iss := "http://localhost:5000", aud := "http://localhost:8081",
                      sub := d.user.sub, exp := now + 3600, iat := now,
                      scope := joinSpace d.scopes, tenant_id := some d.user.tenant_id })
        (some { iss := "http://localhost:5000", sub := d.user.sub, aud := cid,
                exp := now + 3600, iat := now, auth_time := now,
                email := d.user.email, profile := d.user.profile,
                scope := joinSpace d.scopes, nonce := none })
        "Bearer" 3600 (joinSpace d.scopes), alistErase codes c)
    ∧ generate_token s256 registry now2 (alistErase codes c) req =
        (.err "invalid_grant" (some "Invalid or expired authorization code.") 400,
         alistErase codes c) := by
  have hnotgt : ¬ now > d.expires_at := by omega
  constructor
  · simp [generate_token, resolveClientCreds, hb, hfc, hfs, hreg, hg, hcode, hstore,
      hru, hcid, hnotgt, hch, hchne, hver, hvne, hsub, hten,
      create_access_token, create_id_token, GENERATE_JWT, strTruthy]
  · simp [generate_token, resolveClientCreds, hb, hfc, hfs, hreg, hg, hcode,
      alistFind_erase, alistErase_erase, strTruthy]

/-- Witness for C1: the concrete PKCE exchange of `pkceRequest` against
`pkceCodes` succeeds once (removing the code) and the replay fails with
invalid_grant. -/
theorem idp_pkce_code_single_use_witness :
    (generate_token s256demo CLIENT_REGISTRY 500 pkceCodes pkceRequest).2 =
        alistErase pkceCodes "demo-code"
    ∧ (generate_token s256demo CLIENT_REGISTRY 500 pkceCodes pkceRequest).1 =
        .ok (.jwtTok { iss := "http://localhost:5000", aud := "http://localhost:8081",
                       sub := "john.doe", exp := 4100, iat := 500,
                       scope := "api:read openid", tenant_id := some "tenant-abc" })
          (some { iss := "http://localhost:5000", sub := "john.doe",
                  aud := "weather_agent", exp := 4100, iat := 500, auth_time := 500,
                  email := "john.doe @example.com", profile := "I am John Doe.",
                  scope := "api:read openid", nonce := none })
          "Bearer" 3600 "api:read openid"
    ∧ (generate_token s256demo CLIENT_REGISTRY 999 (alistErase pkceCodes "demo-code")
        pkceRequest).1 =
        .err "invalid_grant" (some "Invalid or expired authorization code.") 400 := by
  have h := idp_pkce_code_single_use s256demo CLIENT_REGISTRY 500 999 pkceCodes
    pkceRequest "weather_agent" weatherClient "demo-code" "demo-verifier" pkceCodeData
    rfl rfl rfl (by decide) rfl rfl (by decide) (by decide) rfl (by decide) rfl
    (by decide) rfl (by decide) (by decide) (by decide)
  exact ⟨by rw [h.1], by rw [h.1]; rfl, by rw [h.2]⟩

/-- C9: once the client is authenticated and the grant is
authorization_code, a code present in the store is popped before the
redirect-uri/client-id, expiry and PKCE checks, so the store no longer
holds it whatever the outcome, and any later exchange of the same code
— by any authenticated client with any parameters — fails with
invalid_grant "Invalid or expired authorization code." leaving the
store unchanged. -/
theorem auth_code_consumed_before_checks (s256 : String → String)
    (registry : List (String × Client)) (now : Nat)
    (codes : List (String × AuthCodeData)) (req : TokenRequest)
    (cid : String) (client : Client) (c : String) (d : AuthCodeData)
    (hb : req.basicCreds = none)
    (hfc : req.form_client_id = some cid)
    (hfs : req.form_client_secret = some client.client_secret)
    (hreg : alistFind registry cid = some client)
    (hg : req.grant_type = some "authorization_code")
    (hcode : req.code = some c)
    (hstore : alistFind codes c = some d) :
    (generate_token s256 registry now codes req).2 = alistErase codes c
    ∧ alistFind (alistErase codes c) c = none
    ∧ ∀ (req2 : TokenRequest) (now2 : Nat) (cid2 : String) (client2 : Client),
        req2.basicCreds = none → req2.form_client_id = some cid2 →
        req2.form_client_secret = some client2.client_secret →
        alistFind registry cid2 = some client2 →
        req2.grant_type = some "authorization_code" → req2.code = some c →
        generate_token s256 registry now2 (alistErase codes c) req2 =
          (.err "invalid_grant" (some "Invalid or expired authorization code.") 400,
           alistErase codes c) := by
  refine ⟨?_, alistFind_erase codes c, ?_⟩
  · simp [generate_token, resolveClientCreds, hb, hfc, hfs, hreg, hg, hcode,
      hstore, strTruthy]
    repeat' first | rfl | split
  · intro req2 now2 cid2 client2 hb2 hfc2 hfs2 hreg2 hg2 hcode2
    simp [generate_token, resolveClientCreds, hb2, hfc2, hfs2, hreg2, hg2, hcode2,
      alistFind_erase, alistErase_erase, strTruthy]

/-- Witness for C9: the exchange with a wrong redirect uri fails but
still consumes the code; a corrected retry then fails invalid_grant. -/
theorem auth_code_consumed_before_checks_witness :
    (generate_token s256demo CLIENT_REGISTRY 500 pkceCodes pkceRequestWrongRedirect).2 =
        alistErase pkceCodes "demo-code"
    ∧ (generate_token s256demo CLIENT_REGISTRY 500 pkceCodes
        pkceRequestWrongRedirect).1 =
        .err "invalid_grant" (some "Redirect URI or client ID mismatch") 400
    ∧ generate_token s256demo CLIENT_REGISTRY 500 (alistErase pkceCodes "demo-code")
        pkceRequest =
        (.err "invalid_grant" (some "Invalid or expired authorization code.") 400,
         alistErase pkceCodes "demo-code") := by
  have h := auth_code_consumed_before_checks s256demo CLIENT_REGISTRY 500 pkceCodes
    pkceRequestWrongRedirect "weather_agent" weatherClient "demo-code" pkceCodeData
    rfl rfl rfl (by decide) rfl rfl (by decide)
  exact ⟨h.1, by decide, h.2.2 pkceRequest 500 "weather_agent" weatherClient rfl rfl rfl
    (by decide) rfl rfl⟩

/-- C10: a client_credentials request whose scope form field is absent
or empty is split into the one-element scope list [""], and when the
empty string is not among the client's allowed_scopes the endpoint
answers 400 invalid_scope. -/
theorem client_credentials_empty_scope_invalid (s256 : String → String)
    (registry : List (String × Client)) (now : Nat)
    (codes : List (String × AuthCodeData)) (req : TokenRequest)
    (cid : String) (client : Client)
    (hb : req.basicCreds = none)
    (hfc : req.form_client_id = some cid)
    (hfs : req.form_client_secret = some client.client_secret)
    (hreg : alistFind registry cid = some client)
    (hg : req.grant_type = some "client_credentials")
    (hsc : req.scope = none ∨ req.scope = some "")
    (hall : client.allowed_scopes.contains "" = false) :
    generate_token s256 registry now codes req = (.err "invalid_scope" none 400, codes) := by
  have hnm : "" ∉ client.allowed_scopes := by simpa using hall
  have hsplit : pySplit "" ' ' = [""] := rfl
  rcases hsc with h | h <;>
    simp [generate_token, resolveClientCreds, hb, hfc, hfs, hreg, hg, h, hsplit,
      firstDisallowedScope, hall, hnm, strTruthy]

/-- Witness for C10: `weather_agent` (allowed scopes api:read, openid)
posting client_credentials with no scope field gets invalid_scope. -/
theorem client_credentials_empty_scope_invalid_witness :
    generate_token s256demo CLIENT_REGISTRY 500 [] ccEmptyScopeRequest =
      (.err "invalid_scope" none 400, []) :=
  client_credentials_empty_scope_invalid s256demo CLIENT_REGISTRY 500 []
    ccEmptyScopeRequest "weather_agent" weatherClient rfl rfl rfl (by decide) rfl
    (Or.inl rfl) (by decide)

/-- C2 (code bug): the background dispatch handler performs at most one
remote call for every input and, when the remote answers the single
call with the expired-token error (the session holding a refresh
token), it marks the task failed with "Failed to send message" —
it never exchanges the refresh token (which it does not even receive)
and never retries, although test_routing_agent.py's
test_send_message_refreshes_expired_token expects one refresh and a
second call with the new token. -/
theorem router_no_refresh_retry_on_expired_token :
    c2Result.2 = 1
    ∧ taskStateOf c2Result.1 "t1" = some .failed
    ∧ (alistFind c2Result.1 "t1").map (fun t => t.failMessage) =
        some (some "Failed to send message")
    ∧ ∀ (conns : List String) (name : String) (resp : RemoteSendResponse)
        (tid : String) (store : TaskStore),
        (send_message_and_process_response conns name resp tid store).2 ≤ 1 := by
  refine ⟨by decide, by decide, by decide, ?_⟩
  intro conns name resp tid store
  unfold send_message_and_process_response
  split
  · exact Nat.zero_le 1
  · cases resp <;> exact Nat.le_refl 1

/-- C8 (code bug): routing_agent.py never imports asyncio, so a
dispatch that reaches step 5 of send_message raises NameError after the
submitted task has been persisted — the caller gets an exception
instead of the confirmation string, and no background dispatch is
spawned. -/
theorem send_message_name_error_code_bug :
    routingAgentImportedNames.contains "asyncio" = false
    ∧ c8Result.1 = .nameErr "asyncio"
    ∧ outcomeSpawnsDispatch c8Result.1 = false
    ∧ taskStateOf c8Result.2.1 "t1" = some .submitted := by
  refine ⟨by decide, by decide, by decide, by decide⟩

/-- C3 counterexample: a task that the background dispatch left in the
terminal state failed is moved back to working by a replayed OAuth
callback carrying its task id — the callback handler writes working
unconditionally, so the forward-only transition claim is false. -/
theorem task_state_callback_rollback_cex :
    taskStateOf c3Store2 "t1" = some .failed
    ∧ c3Callback.1 = .redirectHome
    ∧ taskStateOf c3Callback.2.1 "t1" = some .working
    ∧ stateForward .failed .working = false := by
  decide

/-- C3 (amended): task creation persists the task as submitted;
processing a background dispatch result moves a submitted or working
task only forward (to working or failed); and the OAuth callback
handler, which sets any existing task to working, moves states only
forward provided the task it targets is still submitted or working.
(The counterexample shows the unguarded callback write breaks the
original claim on terminal tasks.) -/
theorem task_state_forward_amended :
    (∀ (cards : List ExtendedAgentCard) (st : SessionState)
        (atype task tid cid : String) (env : Option String) (store : TaskStore)
        (card : ExtendedAgentCard),
        find_agent_card_by_type cards atype st.tenant_id = some card →
        taskStateOf (send_message cards st atype task tid cid env store).2.1 tid =
          some .submitted)
    ∧ (∀ (conns : List String) (name : String) (resp : RemoteSendResponse)
        (tid : String) (store : TaskStore) (t : TaskRec) (s : PTaskState),
        alistFind store tid = some t → t.id = tid →
        t.status = .submitted ∨ t.status = .working →
        taskStateOf (send_message_and_process_response conns name resp tid store).1
          tid = some s →
        stateForward t.status s = true)
    ∧ (∀ (store : TaskStore) (session : SessionState) (cp sp : Option String)
        (tid : String) (es : Nat) (td : Option String × Option String)
        (t : TaskRec) (s : PTaskState),
        alistFind store tid = some t → t.id = tid →
        t.status = .submitted ∨ t.status = .working →
        taskStateOf (handle_callback store session cp sp (some (some tid)) es td).2.1
          tid = some s →
        stateForward t.status s = true) := by
  refine ⟨?_, ?_, ?_⟩
  · intro cards st atype task tid cid env store card hfind
    simp only [send_message, hfind]
    repeat' first
      | exact taskStateOf_save_self _ _
      | split
  · intro conns name resp tid store t s ht hid hst hs
    subst hid
    unfold send_message_and_process_response at hs
    cases hcb : conns.contains name with
    | true =>
      have hmem : name ∈ conns := by simpa using hcb
      cases resp with
      | successTask rid =>
        simp [hcb, hmem, storeSetRemoteTaskId, ht, taskStateOf, alistFind_save] at hs
        subst hs
        rcases hst with h | h <;> rw [h] <;> rfl
      | successNonTask =>
        simp [hcb, hmem, storeTaskFailed, ht, taskStateOf, alistFind_save] at hs
        subst hs
        rcases hst with h | h <;> rw [h] <;> rfl
      | errorResponse msg =>
        simp [hcb, hmem, storeTaskFailed, ht, taskStateOf, alistFind_save] at hs
        subst hs
        rcases hst with h | h <;> rw [h] <;> rfl
    | false =>
      have hnmem : name ∉ conns := by simpa using hcb
      simp [hcb, hnmem, taskStateOf, ht] at hs
      subst hs
      rcases hst with h | h <;> rw [h] <;> rfl
  · intro store session cp sp tid es td t s ht hid hst hs
    subst hid
    unfold handle_callback at hs
    by_cases h1 : (!strTruthy cp || !strTruthy sp) = true
    · rw [if_pos h1] at hs
      simp [taskStateOf, ht] at hs
      subst hs
      rcases hst with h | h <;> rw [h] <;> rfl
    · rw [if_neg h1] at hs
      by_cases h2 : strTruthy (some t.id) = true
      · by_cases h3 : es = 200
        · simp [h2, h3, storeGet, ht, taskStateOf, alistFind_save] at hs
          subst hs
          rcases hst with h | h <;> rw [h] <;> rfl
        · simp [h2, h3, taskStateOf, ht] at hs
          subst hs
          rcases hst with h | h <;> rw [h] <;> rfl
      · simp [h2, taskStateOf, ht] at hs
        subst hs
        rcases hst with h | h <;> rw [h] <;> rfl

/-- Witness for amended C3: the creation step of the concrete weather
dispatch leaves task "t1" in state submitted. -/
theorem task_state_forward_amended_witness :
    taskStateOf (send_message [weatherCard] {} "weather" "what is the weather in london"
      "t1" "ctx1" none []).2.1 "t1" = some .submitted :=
  task_state_forward_amended.1 [weatherCard] {} "weather"
    "what is the weather in london" "t1" "ctx1" none [] weatherCard (by decide)

/-- C4 counterexample: a matched card whose (truthy) security block
lacks authorization_uri, with no session access token, yields the error
dictionary — a payload without redirect_url — so the claim that such a
dispatch always returns a redirect payload containing redirect_url is
false. -/
theorem oauth_redirect_missing_auth_uri_cex :
    horizonCardNoAuthUri.security = some [("token_uri", "http://idp/generate-token")]
    ∧ c4Result.1 = .oauthJson (.errDict "Authorization URI not found in security details.")
    ∧ oauthPayloadHasRedirectUrl
        (.errDict "Authorization URI not found in security details.") = false
    ∧ outcomeSpawnsDispatch c4Result.1 = false := by
  decide

/-- C4 (amended): when the matched card's security dictionary is
nonempty and the session holds no (truthy) access token, send_message
never spawns the background dispatch (the remote agent is not
contacted), persists the task as submitted, and returns the
initiate_oauth_flow payload: the redirect dictionary with
response_type=code, client_id the agent name, the fixed scopes
"openid profile email api:read" and state carrying the task id as
JSON, together with the task id, whenever the security dictionary has
a nonempty authorization_uri — and the error dictionary (without
redirect_url) when it does not. -/
theorem oauth_redirect_amended (cards : List ExtendedAgentCard) (state : SessionState)
    (agent_type task tid cid : String) (env : Option String) (store : TaskStore)
    (card : ExtendedAgentCard) (d : List (String × String))
    (hfind : find_agent_card_by_type cards agent_type state.tenant_id = some card)
    (hsec : card.security = some d) (hd : d ≠ [])
    (htok : strTruthy state.access_token = false) :
    (send_message cards state agent_type task tid cid env store).1 =
      .oauthJson (initiate_oauth_flow card.name d tid env)
    ∧ outcomeSpawnsDispatch
        (send_message cards state agent_type task tid cid env store).1 = false
    ∧ taskStateOf (send_message cards state agent_type task tid cid env store).2.1 tid =
        some .submitted
    ∧ (∀ u, alistFind d "authorization_uri" = some u → u ≠ "" →
        (send_message cards state agent_type task tid cid env store).1 =
          .oauthJson (.redirectDict
            { base := u,
              params := { response_type := "code", client_id := card.name,
                          redirect_uri := getenvOr env REDIRECT_URI_DEFAULT,
                          scope := "openid profile email api:read",
                          state := jsonDumpsTaskId tid } } tid))
    ∧ ((alistFind d "authorization_uri" = none ∨
          alistFind d "authorization_uri" = some "") →
        (send_message cards state agent_type task tid cid env store).1 =
          .oauthJson (.errDict "Authorization URI not found in security details.")) := by
  have hde : d.isEmpty = false := list_isEmpty_false hd
  have h1 : (send_message cards state agent_type task tid cid env store).1 =
      .oauthJson (initiate_oauth_flow card.name d tid env) := by
    simp [send_message, hfind, hsec, htok, hde]
  have h2 : taskStateOf (send_message cards state agent_type task tid cid env store).2.1
      tid = some .submitted := by
    simp [send_message, hfind, hsec, htok, hde, taskStateOf_save]
  refine ⟨h1, by rw [h1]; rfl, h2, ?_, ?_⟩
  · intro u hu hune
    rw [h1]
    simp [initiate_oauth_flow, hu, hune]
  · intro hmiss
    rw [h1]
    rcases hmiss with h | h <;> simp [initiate_oauth_flow, h]

/-- Witness for amended C4: the concrete secured horizon card with
authorization_uri http://idp/auth yields the full redirect payload. -/
theorem oauth_redirect_amended_witness :
    (send_message [weatherCard, horizonCard] { tenant_id := some "tenant-abc" }
      "horizon" "check my order" "t2" "ctx2" none []).1 =
      .oauthJson (.redirectDict
        { base := "http://idp/auth",
          params := { response_type := "code", client_id := "Horizon Agent - Tenant ABC",
                      redirect_uri := "http://localhost:8083/callback",
                      scope := "openid profile email api:read",
                      state := jsonDumpsTaskId "t2" } } "t2") :=
  (oauth_redirect_amended [weatherCard, horizonCard] { tenant_id := some "tenant-abc" }
      "horizon" "check my order" "t2" "ctx2" none [] horizonCard
      [("authorization_uri", "http://idp/auth")] (by decide) (by decide) (by decide)
      (by decide)).2.2.2.1 "http://idp/auth" (by decide) (by decide)
